import Mathlib

/-!
Shallow embedding of the quadruped-firmware motion pipeline:
inverse kinematics (src/kinematics/inverse_kinematics.py), trajectory
generation (src/gaits/trajectory_generator.py), trot-gait stepping
(src/gaits/gait_controller.py), servo actuation with retry
(src/hardware/servo_controller.py), the network intent receiver
(src/controllers/network_receiver.py) and the orchestration loop
(src/robot/quadruped.py).  Floating-point arithmetic is embedded as exact
real arithmetic; exceptions are embedded as `Except` / `Option` error
values; hardware and transport are embedded as explicit oracles.
-/

namespace QuadrupedFw

/-- Errors raised by `InverseKinematics.calculate`: the `ValidationError`
for a Y coordinate below 0.1, and the `KinematicsError` for an
unreachable position, carrying the reported distance and max reach. -/
inductive KinErr where
  | invalidY : KinErr
  | unreachable (distance maxReach : ℝ) : KinErr

/-- Configuration of `InverseKinematics.__init__`: leg link lengths and
per-joint angle offsets, with the source's default values available via
`default`. -/
structure IKConfig where
  upper_leg_length : ℝ := 10.0
  lower_leg_length : ℝ := 10.5
  shoulder_offset : ℝ := 10.0
  elbow_offset : ℝ := 20.0
  hip_offset : ℝ := 0.0
  hip_parameter : ℝ := 2.0

/-- The source's default configuration (no config dict supplied). -/
def defaultCfg : IKConfig := {}

/-- Python's `math.atan2 y x` on reals (quadrant-correct arctangent). -/
noncomputable def atan2 (y x : ℝ) : ℝ :=
  if 0 < x then Real.arctan (y / x)
  else if x < 0 then
    (if 0 ≤ y then Real.arctan (y / x) + Real.pi
     else Real.arctan (y / x) - Real.pi)
  else if 0 < y then Real.pi / 2
  else if y < 0 then -(Real.pi / 2)
  else 0

/-- Model of `InverseKinematics.rad_to_degree` / `math.degrees`. -/
noncomputable def rad_to_degree (radians : ℝ) : ℝ :=
  radians * 180 / Real.pi

/-- Model of `InverseKinematics.calculate(x, y, z, hip_offset, right)`.
Mirrors the source line by line: validate `y ≥ 0.1`, mirror `z` for the
left side, compute planar and spatial distances, check reachability
against `L1 + L2`, law-of-cosines elbow/shoulder angles with the cosine
arguments clamped to `[-1, 1]`, hip angle via `atan2`, and convert to
degrees adding the configured per-joint offsets.  The `hip_offset`
argument is accepted and, exactly as in the source, never used after its
defaulting line. -/
noncomputable def calculate (cfg : IKConfig) (x y z : ℝ)
    (hip_offset : Option ℝ := none) (right : Bool := true) :
    Except KinErr (ℝ × ℝ × ℝ) :=
  if y < 0.1 then .error .invalidY
  else
    let _L := hip_offset.getD cfg.hip_parameter
    let z := if right then z else -z
    let upper_link_length := cfg.upper_leg_length
    let lower_link_length := cfg.lower_leg_length
    let distance_xy := Real.sqrt (x * x + y * y)
    let distance_xyz := Real.sqrt (distance_xy * distance_xy + z * z)
    let max_reach := upper_link_length + lower_link_length
    if distance_xyz > max_reach then
      .error (.unreachable distance_xyz max_reach)
    else
      let cos_elbow :=
        (upper_link_length * upper_link_length +
         lower_link_length * lower_link_length -
         distance_xyz * distance_xyz) /
        (2 * upper_link_length * lower_link_length)
      let cos_elbow := max (-1.0) (min 1.0 cos_elbow)
      let elbow_angle_rad := Real.arccos cos_elbow
      let cos_shoulder :=
        (upper_link_length * upper_link_length +
         distance_xyz * distance_xyz -
         lower_link_length * lower_link_length) /
        (2 * upper_link_length * distance_xyz)
      let cos_shoulder := max (-1.0) (min 1.0 cos_shoulder)
      let shoulder_angle_rad := Real.arccos cos_shoulder
      let hip_angle_rad := atan2 z distance_xy
      .ok (rad_to_degree shoulder_angle_rad + cfg.shoulder_offset,
           rad_to_degree elbow_angle_rad + cfg.elbow_offset,
           rad_to_degree hip_angle_rad + cfg.hip_offset)

/-- Errors raised by `ServoController.set_angle`: `ValidationError` for a
motor id outside [0, 9] or an angle outside [0, 180], and `ServoError`
after exhausting retries. -/
inductive ServoErr where
  | invalidMotorId : ServoErr
  | invalidAngle : ServoErr
  | servoFailed : ServoErr
  deriving DecidableEq

/-- The retry loop of `set_angle`: each attempt performs one hardware
write (recorded in the returned list); the oracle `ok` says whether the
write of attempt `k` succeeds (no exception).  Exhausting all attempts
yields the `ServoError`. -/
def attemptLoop (ok : ℕ → Bool) (motor_id : ℤ) (degrees : ℝ) :
    ℕ → ℕ → Except ServoErr Bool × List (ℤ × ℝ)
  | 0, _ => (.error .servoFailed, [])
  | remaining + 1, attempt =>
      if ok attempt then (.ok true, [(motor_id, degrees)])
      else
        let r := attemptLoop ok motor_id degrees remaining (attempt + 1)
        (r.1, (motor_id, degrees) :: r.2)

/-- Model of `ServoController.set_angle(motor_id, degrees, retry_count)`:
validates the motor id and the angle before any hardware interaction,
then runs the bounded retry loop.  Returns the outcome together with the
list of hardware writes performed. -/
noncomputable def set_angle (ok : ℕ → Bool) (motor_id : ℤ) (degrees : ℝ)
    (retry_count : ℕ := 3) : Except ServoErr Bool × List (ℤ × ℝ) :=
  if ¬ (0 ≤ motor_id ∧ motor_id < 10) then (.error .invalidMotorId, [])
  else if ¬ (0 ≤ degrees ∧ degrees ≤ 180) then (.error .invalidAngle, [])
  else attemptLoop ok motor_id degrees retry_count 0

/-- Model of `ServoController.calibrate(calibration_angles)`: tries `set_angle`
on every entry, catching each entry's failure and continuing; returns
the overall success flag plus the list of channels attempted, in
order. -/
noncomputable def calibrate (hw : ℤ → ℕ → Bool) :
    List (ℤ × ℝ) → Bool × List ℤ
  | [] => (true, [])
  | (motor_id, angle) :: rest =>
      let r := set_angle (hw motor_id) motor_id angle 3
      let tail := calibrate hw rest
      (r.1.isOk && tail.1, motor_id :: tail.2)

/-- A failure propagating out of a leg update: either from the
kinematics solver or from the servo layer. -/
inductive DispatchErr where
  | kin (e : KinErr) : DispatchErr
  | servo (e : ServoErr) : DispatchErr

/-- Model of `GaitController.apply_trajectory_to_leg`: solve the joint angles,
then dispatch shoulder and elbow, and the hip only when a hip motor is
assigned.  Returns the hardware writes performed and the first error, if
any; writes made before a failing servo call are kept, mirroring the
sequential dispatch in the source. -/
noncomputable def applyTrajectoryToLeg (cfg : IKConfig) (hw : ℤ → ℕ → Bool)
    (shoulder_motor elbow_motor : ℤ) (x y z : ℝ)
    (hip_motor : Option ℤ) (right : Bool) :
    List (ℤ × ℝ) × Option DispatchErr :=
  match calculate cfg x y z none right with
  | .error e => ([], some (.kin e))
  | .ok (shoulder_angle, elbow_angle, hip_angle) =>
      let r1 := set_angle (hw shoulder_motor) shoulder_motor shoulder_angle 3
      match r1.1 with
      | .error e => (r1.2, some (.servo e))
      | .ok _ =>
        let r2 := set_angle (hw elbow_motor) elbow_motor elbow_angle 3
        match r2.1 with
        | .error e => (r1.2 ++ r2.2, some (.servo e))
        | .ok _ =>
          match hip_motor with
          | none => (r1.2 ++ r2.2, none)
          | some hm =>
            let r3 := set_angle (hw hm) hm hip_angle 3
            match r3.1 with
            | .error e => (r1.2 ++ r2.2 ++ r3.2, some (.servo e))
            | .ok _ => (r1.2 ++ r2.2 ++ r3.2, none)

/-- Model of `GaitController.apply_trot_gait_step`: primary index
`step_index % trajectory_length`, secondary index
`(step_index + step_resolution) % trajectory_length`; diagonal pairs
FR/BL use the primary sample, BR/FL the secondary one, with the per-leg
vertical biases (−1 front, +2 back) and the z sign flip on the left
side, dispatching through `applyTrajectoryToLeg` with the motor channel
numbers of the `Motor` enum (rear legs have no hip motor). -/
noncomputable def applyTrotGaitStep (cfg : IKConfig) (hw : ℤ → ℕ → Bool)
    (trajectory : List ℝ × List ℝ × List ℝ)
    (step_index step_resolution trajectory_length : ℕ) :
    List (ℤ × ℝ) × Option DispatchErr :=
  let x_coords := trajectory.1
  let z_coords := trajectory.2.1
  let y_coords := trajectory.2.2
  let index_1 := step_index % trajectory_length
  let index_2 := (step_index + step_resolution) % trajectory_length
  let x1 := x_coords.getD index_1 0
  let y1 := y_coords.getD index_1 0
  let z1 := z_coords.getD index_1 0
  let x2 := x_coords.getD index_2 0
  let y2 := y_coords.getD index_2 0
  let z2 := z_coords.getD index_2 0
  let fr := applyTrajectoryToLeg cfg hw 0 1 x1 (y1 - 1) z1 (some 2) true
  match fr.2 with
  | some e => (fr.1, some e)
  | none =>
    let br := applyTrajectoryToLeg cfg hw 6 7 x2 (y2 + 2) 0 none true
    match br.2 with
    | some e => (fr.1 ++ br.1, some e)
    | none =>
      let fl := applyTrajectoryToLeg cfg hw 3 4 x2 (y2 - 1) (-z2) (some 5)
        false
      match fl.2 with
      | some e => (fr.1 ++ br.1 ++ fl.1, some e)
      | none =>
        let bl := applyTrajectoryToLeg cfg hw 8 9 x1 (y1 + 2) 0 none false
        (fr.1 ++ br.1 ++ fl.1 ++ bl.1, bl.2)

/-- The `ControllerError` escalated by the network receiver after the
consecutive-error threshold. -/
inductive CtrlErr where
  | transport : CtrlErr
  deriving DecidableEq

/-- One poll outcome seen by `network_receiver.controller`: a datagram
of `nbytes` bytes decoding to momentum `value` with `valid` recording
whether `validate_momentum` accepts it, a socket timeout (no new data),
a socket error, or another exception. -/
inductive NetEvent (M : Type) where
  | recv (nbytes : ℕ) (value : M) (valid : Bool) : NetEvent M
  | timeout : NetEvent M
  | sockError : NetEvent M
  | otherError : NetEvent M

/-- One call of `network_receiver.controller`, with the hidden
`_error_count` made explicit: the state is (current momentum,
consecutive error count).  A datagram shorter than 16 bytes is "no
update"; a full datagram replaces the momentum (and resets the count
only when validation passes); a timeout resets the count; a socket or
other error increments it and escalates to `ControllerError` when the
count reaches 10. -/
def receiverStep {M : Type} (p : M × ℕ) (ev : NetEvent M) :
    Except CtrlErr (M × ℕ) :=
  match ev with
  | .recv nbytes value valid =>
      if nbytes < 16 then .ok p
      else if valid then .ok (value, 0)
      else .ok (value, p.2)
  | .timeout => .ok (p.1, 0)
  | .sockError =>
      if p.2 + 1 ≥ 10 then .error .transport else .ok (p.1, p.2 + 1)
  | .otherError =>
      if p.2 + 1 ≥ 10 then .error .transport else .ok (p.1, p.2 + 1)

/-- Repeated polling of the receiver over a list of poll outcomes,
stopping at the first escalated error. -/
def runReceiver {M : Type} :
    List (NetEvent M) → M × ℕ → Except CtrlErr (M × ℕ)
  | [], p => .ok p
  | ev :: rest, p =>
      match receiverStep p ev with
      | .error e => .error e
      | .ok p' => runReceiver rest p'

/-- Model of `numpy.linspace(0.0, 1.0, n)`: `n` uniformly spaced samples of
[0, 1] (a single `0` when `n = 1`, empty when `n = 0`). -/
noncomputable def linspace01 (n : ℕ) : List ℝ :=
  if n = 0 then []
  else if n = 1 then [0]
  else (List.range n).map fun i : ℕ => (i : ℝ) / ((n : ℝ) - 1)

/-- A degree-3 Bézier curve through four control values, as evaluated by
`bezier.Curve(..., degree=3).evaluate_multi`. -/
noncomputable def cubicBezier (p0 p1 p2 p3 s : ℝ) : ℝ :=
  (1 - s) ^ 3 * p0 + 3 * (1 - s) ^ 2 * s * p1 +
    3 * (1 - s) * s ^ 2 * p2 + s ^ 3 * p3

/-- A degree-1 Bézier curve through two control values. -/
noncomputable def linearBezier (p0 p1 s : ℝ) : ℝ :=
  (1 - s) * p0 + s * p1

/-- The trajectory computed inside `TrajectoryGenerator.generate`: the
cubic "step" (lift) segment with nodes x,z = [-1,-1,1,1] and
y = [-15,-10,-10,-15], concatenated with the linear "slide" segment with
nodes x,z = [1,-1] and y = [-15,-15], each sampled at
`step_resolution` parameter values. -/
noncomputable def computeTrajectory (step_resolution : ℕ) :
    List ℝ × List ℝ × List ℝ :=
  let s_vals := linspace01 step_resolution
  let step_x := s_vals.map (cubicBezier (-1) (-1) 1 1)
  let step_z := s_vals.map (cubicBezier (-1) (-1) 1 1)
  let step_y := s_vals.map (cubicBezier (-15) (-10) (-10) (-15))
  let slide_x := s_vals.map (linearBezier 1 (-1))
  let slide_z := s_vals.map (linearBezier 1 (-1))
  let slide_y := s_vals.map (linearBezier (-15) (-15))
  (step_x ++ slide_x, step_z ++ slide_z, step_y ++ slide_y)

/-- The state of a `TrajectoryGenerator`: its resolution and the
memoized trajectory with its length, when already computed. -/
structure TrajGen where
  step_resolution : ℕ
  cached : Option ((List ℝ × List ℝ × List ℝ) × ℕ)

/-- Model of `TrajectoryGenerator.generate()`: return the cached trajectory if
present, otherwise compute it, record its length (the length of the
first coordinate row) and cache both. -/
noncomputable def generate (g : TrajGen) :
    ((List ℝ × List ℝ × List ℝ) × ℕ) × TrajGen :=
  match g.cached with
  | some c => (c, g)
  | none =>
      let t := computeTrajectory g.step_resolution
      let L := t.1.length
      ((t, L), { g with cached := some (t, L) })

/-- Model of `TrajectoryGenerator.clear_cache()`. -/
def clear_cache (g : TrajGen) : TrajGen :=
  { g with cached := none }

/-- The momentum array `[x, z, y, quit]` threaded through the movement
loop and the intent sources. -/
structure Momentum where
  forward : ℝ
  lateral : ℝ
  vertical : ℝ
  quit_flag : ℝ

/-- The initial momentum of `Quadruped.move`: `[0.0, 0.0, 1.0, 0.0]`. -/
def initialMomentum : Momentum :=
  ⟨0, 0, 1, 0⟩

/-- The per-tick element-wise scaling of the cached trajectory by the
intent components, as done in `Quadruped.move`. -/
noncomputable def scaleTrajectory (m : Momentum)
    (trajectory : List ℝ × List ℝ × List ℝ) :
    List ℝ × List ℝ × List ℝ :=
  (trajectory.1.map (· * m.forward),
   trajectory.2.1.map (· * m.lateral),
   trajectory.2.2.map (· * m.vertical))

/-- How a run of the movement loop ends: clean stop on the quit flag, a
propagated component failure, or the modelling fuel running out.  Each
outcome carries the number of ticks performed (polls of the intent
source) and every hardware write issued. -/
inductive MoveOutcome where
  | stopped (ticks : ℕ) (cmds : List (ℤ × ℝ)) : MoveOutcome
  | failed (ticks : ℕ) (cmds : List (ℤ × ℝ)) (e : DispatchErr) : MoveOutcome
  | fuelExhausted (ticks : ℕ) (cmds : List (ℤ × ℝ)) : MoveOutcome

/-- The body of `Quadruped.move`'s `while True` loop, with explicit fuel:
poll the controller, stop when the quit field exceeds 0.5, otherwise
scale the trajectory by the intent, apply one trot gait step
(propagating any failure, which ends the loop), and advance
`step_index`. -/
noncomputable def moveLoop (cfg : IKConfig) (hw : ℤ → ℕ → Bool)
    (ctrl : Momentum → Momentum) (trajectory : List ℝ × List ℝ × List ℝ)
    (trajectory_length step_resolution : ℕ) :
    ℕ → Momentum → ℕ → ℕ → List (ℤ × ℝ) → MoveOutcome
  | 0, _, _, ticks, cmds => .fuelExhausted ticks cmds
  | fuel + 1, m, step_index, ticks, cmds =>
      let m' := ctrl m
      if m'.quit_flag > 0.5 then .stopped (ticks + 1) cmds
      else
        let step := applyTrotGaitStep cfg hw (scaleTrajectory m' trajectory)
          step_index step_resolution trajectory_length
        match step.2 with
        | some e => .failed (ticks + 1) (cmds ++ step.1) e
        | none =>
            moveLoop cfg hw ctrl trajectory trajectory_length step_resolution
              fuel m' (step_index + 1) (ticks + 1) (cmds ++ step.1)

/-- Model of `Quadruped.move(controller)`: run the loop from the initial momentum
with `step_index = 0` and no commands issued yet. -/
noncomputable def move (cfg : IKConfig) (hw : ℤ → ℕ → Bool)
    (ctrl : Momentum → Momentum) (trajectory : List ℝ × List ℝ × List ℝ)
    (trajectory_length step_resolution fuel : ℕ) : MoveOutcome :=
  moveLoop cfg hw ctrl trajectory trajectory_length step_resolution fuel
    initialMomentum 0 0 []

/-- The `leg_mapping` table of `Quadruped.leg_position`: shoulder motor,
elbow motor, optional hip motor and side flag per leg id; `none` for a
leg id outside the table (where `validate_leg_id` raises). -/
def legMapping (leg_id : String) : Option (ℤ × ℤ × Option ℤ × Bool) :=
  if leg_id = "FR" then some (0, 1, some 2, true)
  else if leg_id = "FL" then some (3, 4, some 5, false)
  else if leg_id = "BR" then some (6, 7, none, true)
  else if leg_id = "BL" then some (8, 9, none, false)
  else none

/-- Model of `Quadruped.leg_position(leg_id, x, y, z)`: validate the leg id
(raising, i.e. `.error`, for an invalid one), then run the leg update
inside try/except, returning `true` on success and `false` on any caught
internal failure. -/
noncomputable def leg_position (cfg : IKConfig) (hw : ℤ → ℕ → Bool)
    (leg_id : String) (x y z : ℝ) : Except Unit Bool :=
  match legMapping leg_id with
  | none => .error ()
  | some (shoulder_motor, elbow_motor, hip_motor, right) =>
      match (applyTrajectoryToLeg cfg hw shoulder_motor elbow_motor
          x y z hip_motor right).2 with
      | none => .ok true
      | some _ => .ok false

/-- The spatial distance computed by `calculate` (square root of planar
distance squared plus z squared) equals `sqrt (x² + y² + z²)`. -/
lemma spatial_distance_eq (x y z : ℝ) :
    Real.sqrt (Real.sqrt (x * x + y * y) * Real.sqrt (x * x + y * y) + z * z)
      = Real.sqrt (x ^ 2 + y ^ 2 + z ^ 2) := by
  rw [Real.mul_self_sqrt (add_nonneg (mul_self_nonneg x) (mul_self_nonneg y))]
  ring_nf

/-- C1: the source evaluated at the golden input.  With the default
configuration (L1 = 10.0, L2 = 10.5), `calculate(5, -15, 0, side=right)`
raises `ValidationError` because of the `y < 0.1` guard, instead of
returning the law-of-cosines angles the spec (and the repository's own
test `test_kinematics_reachable_position`) expects — the position itself
is reachable, since `sqrt 250 < 20.5`. -/
theorem calculate_golden_input_rejected :
    calculate defaultCfg 5 (-15) 0 none true = .error .invalidY := by
  rw [calculate, if_pos (by norm_num)]

/-- A left-side call on the mirrored z solves exactly the same geometry
as the right-side call: the `right = false` branch negates `z` again. -/
lemma calculate_left_mirrors_right (cfg : IKConfig) (x y z : ℝ)
    (hip : Option ℝ) :
    calculate cfg x y (-z) hip false = calculate cfg x y z hip true := by
  simp only [calculate, Bool.false_eq_true, if_false, if_true, neg_neg]

/-- C3 (amended): mirror symmetry as the code actually implements it.
`calculate(x, y, -z, side=left)` returns exactly the same
(shoulder, elbow, hip) triple as `calculate(x, y, z, side=right)`,
because the left branch negates `z` again before solving: hip angles of
the two calls are equal, not negated. -/
theorem calculate_mirror_sides_equal (cfg : IKConfig) (x y z : ℝ)
    (hip : Option ℝ) :
    calculate cfg x y (-z) hip false = calculate cfg x y z hip true :=
  calculate_left_mirrors_right cfg x y z hip

/-- C2: for every x, y, z with y ≥ 0.1, `calculate` fails with
`Unreachable` — reporting the spatial distance and the maximum reach —
exactly when `sqrt (x² + y² + z²)` exceeds L1 + L2, and otherwise
returns three (real, hence finite) angles.  The function is pure: on
failure it returns only the error value, issuing no command. -/
theorem calculate_unreachable_iff (cfg : IKConfig) (x y z : ℝ) (right : Bool)
    (hy : 0.1 ≤ y) :
    (calculate cfg x y z none right =
        .error (.unreachable (Real.sqrt (x ^ 2 + y ^ 2 + z ^ 2))
          (cfg.upper_leg_length + cfg.lower_leg_length)) ↔
      cfg.upper_leg_length + cfg.lower_leg_length
        < Real.sqrt (x ^ 2 + y ^ 2 + z ^ 2)) ∧
    (Real.sqrt (x ^ 2 + y ^ 2 + z ^ 2)
        ≤ cfg.upper_leg_length + cfg.lower_leg_length →
      ∃ s e h, calculate cfg x y z none right = .ok (s, e, h)) := by
  have hz : (if right then z else -z) * (if right then z else -z) = z * z := by
    cases right <;> simp [neg_mul_neg]
  have hkey : Real.sqrt (Real.sqrt (x * x + y * y) * Real.sqrt (x * x + y * y)
        + (if right then z else -z) * (if right then z else -z))
      = Real.sqrt (x ^ 2 + y ^ 2 + z ^ 2) := by
    rw [hz, spatial_distance_eq]
  rw [calculate, if_neg (not_lt.mpr hy)]
  simp only [hkey]
  by_cases hd : cfg.upper_leg_length + cfg.lower_leg_length
      < Real.sqrt (x ^ 2 + y ^ 2 + z ^ 2)
  · rw [if_pos hd]
    exact ⟨by simp [hd], fun hle => absurd hd (not_lt.mpr hle)⟩
  · rw [if_neg hd]
    refine ⟨⟨fun hEq => by simp at hEq, fun h => absurd h hd⟩,
      fun _ => ⟨_, _, _, rfl⟩⟩

/-- Witness for C2 at x = 0, y = 1, z = 0 with the default
configuration. -/
theorem calculate_unreachable_iff_witness :
    ((calculate defaultCfg 0 1 0 none true =
        .error (.unreachable (Real.sqrt ((0:ℝ) ^ 2 + 1 ^ 2 + 0 ^ 2))
          (defaultCfg.upper_leg_length + defaultCfg.lower_leg_length)) ↔
      defaultCfg.upper_leg_length + defaultCfg.lower_leg_length
        < Real.sqrt ((0:ℝ) ^ 2 + 1 ^ 2 + 0 ^ 2)) ∧
    (Real.sqrt ((0:ℝ) ^ 2 + 1 ^ 2 + 0 ^ 2)
        ≤ defaultCfg.upper_leg_length + defaultCfg.lower_leg_length →
      ∃ s e h, calculate defaultCfg 0 1 0 none true = .ok (s, e, h))) :=
  calculate_unreachable_iff defaultCfg 0 1 0 true (by norm_num)

/-- C3 (counterexample): at x = 3, y = 4, z = 5 with the default
configuration (hip offset 0), the right-side hip angle is 45 degrees and
the left-side hip angle for mirrored z is also 45 degrees — equal, not
negated: 45 ≠ -45. -/
theorem calculate_mirror_hip_negation_counterexample :
    (calculate defaultCfg 3 4 5 none true).map (fun a => a.2.2) = .ok 45 ∧
    (calculate defaultCfg 3 4 (-5) none false).map (fun a => a.2.2) = .ok 45 ∧
    (45 : ℝ) ≠ -(45 : ℝ) := by
  have h25 : Real.sqrt (25 : ℝ) = 5 := by
    rw [show (25 : ℝ) = 5 ^ 2 by norm_num]
    exact Real.sqrt_sq (by norm_num)
  have h50le : Real.sqrt (50 : ℝ) ≤ 20.5 :=
    Real.sqrt_le_iff.mpr ⟨by norm_num, by norm_num⟩
  have hguard : ¬ ((41 / 2 : ℝ) < Real.sqrt 50) :=
    not_lt.mpr (le_trans h50le (by norm_num))
  have hatan : atan2 5 (5 : ℝ) = Real.pi / 4 := by
    rw [atan2, if_pos (by norm_num : (0 : ℝ) < 5)]
    norm_num [Real.arctan_one]
  have hdeg : rad_to_degree (Real.pi / 4) = 45 := by
    rw [rad_to_degree]
    field_simp
    ring
  have hright : (calculate defaultCfg 3 4 5 none true).map (fun a => a.2.2)
      = .ok 45 := by
    rw [calculate, if_neg (by norm_num)]
    norm_num [defaultCfg, h25, hguard, hatan, hdeg, Except.map]
  refine ⟨hright, ?_, by norm_num⟩
  rw [show (-5 : ℝ) = -(5 : ℝ) by norm_num,
    calculate_left_mirrors_right defaultCfg 3 4 5 none]
  exact hright

/-- C4: a step at `step_index = trajectory_length` selects exactly the
same per-leg trajectory samples — hence issues the same leg targets and
commands — as a step at `step_index = 0`, because the primary index is
`step_index % trajectory_length` and the secondary index is
`(step_index + step_resolution) % trajectory_length`. -/
theorem applyTrotGaitStep_wraps_at_trajectory_length (cfg : IKConfig)
    (hw : ℤ → ℕ → Bool) (trajectory : List ℝ × List ℝ × List ℝ)
    (step_resolution trajectory_length : ℕ) :
    applyTrotGaitStep cfg hw trajectory trajectory_length step_resolution
        trajectory_length
      = applyTrotGaitStep cfg hw trajectory 0 step_resolution
        trajectory_length := by
  simp only [applyTrotGaitStep, Nat.mod_self, Nat.zero_mod,
    Nat.add_mod_left, Nat.zero_add]

/-- C6: `set_angle` validates the motor id and the angle before any
hardware interaction; an invalid motor id (outside [0, 9]) or angle
(outside [0, 180]) yields a `ValidationError` with zero hardware
writes performed. -/
theorem set_angle_invalid_input_no_hardware (ok : ℕ → Bool) (motor_id : ℤ)
    (degrees : ℝ) (retry_count : ℕ)
    (h : ¬ (0 ≤ motor_id ∧ motor_id < 10) ∨
      ¬ (0 ≤ degrees ∧ degrees ≤ 180)) :
    (set_angle ok motor_id degrees retry_count).2 = [] ∧
    ((set_angle ok motor_id degrees retry_count).1
        = .error .invalidMotorId ∨
     (set_angle ok motor_id degrees retry_count).1
        = .error .invalidAngle) := by
  rw [set_angle]
  rcases h with h | h
  · rw [if_pos h]
    exact ⟨rfl, Or.inl rfl⟩
  · by_cases h1 : 0 ≤ motor_id ∧ motor_id < 10
    · rw [if_neg (not_not_intro h1), if_pos h]
      exact ⟨rfl, Or.inr rfl⟩
    · rw [if_pos h1]
      exact ⟨rfl, Or.inl rfl⟩

/-- Witness for C6 at channel 10, degrees 90: the call fails with no
hardware touched. -/
theorem set_angle_invalid_input_no_hardware_witness :
    (set_angle (fun _ => true) 10 90 3).2 = [] ∧
    ((set_angle (fun _ => true) 10 90 3).1 = .error .invalidMotorId ∨
     (set_angle (fun _ => true) 10 90 3).1 = .error .invalidAngle) :=
  set_angle_invalid_input_no_hardware (fun _ => true) 10 90 3
    (Or.inl (by norm_num))

/-- C8: `calibrate` attempts every channel in the map, in order, even
when earlier channels fail, and returns `true` exactly when every
channel in the map was set successfully. -/
theorem calibrate_attempts_all_success_iff (hw : ℤ → ℕ → Bool)
    (entries : List (ℤ × ℝ)) :
    (calibrate hw entries).2 = entries.map Prod.fst ∧
    ((calibrate hw entries).1 = true ↔
      ∀ e ∈ entries, (set_angle (hw e.1) e.1 e.2 3).1.isOk = true) := by
  induction entries with
  | nil => simp [calibrate]
  | cons head tail ih =>
      obtain ⟨motor_id, angle⟩ := head
      refine ⟨by simp [calibrate, ih.1], ?_⟩
      simp only [calibrate, Bool.and_eq_true, List.forall_mem_cons, ih.2]

/-- C7: with the transport raising a socket error on every poll, the
receiver does not raise on the first 9 consecutive failures — it returns
the previous momentum each time — and the 10th consecutive failure
escalates to `ControllerError`; a successful full-length valid receipt
resets the consecutive count to 0. -/
theorem receiver_error_threshold {M : Type} (m : M) :
    runReceiver (List.replicate 9 NetEvent.sockError) (m, 0) = .ok (m, 9) ∧
    runReceiver (List.replicate 10 NetEvent.sockError) (m, 0)
      = .error .transport ∧
    (∀ (cnt nbytes : ℕ) (value : M), 16 ≤ nbytes →
      receiverStep (m, cnt) (NetEvent.recv nbytes value true)
        = .ok (value, 0)) := by
  refine ⟨?_, ?_, ?_⟩
  · norm_num [runReceiver, receiverStep, List.replicate]
  · norm_num [runReceiver, receiverStep, List.replicate]
  · intro cnt nbytes value h
    rw [receiverStep]
    simp [Nat.not_lt.mpr h]

/-- Witness for C7 with momentum modelled as a natural number. -/
theorem receiver_error_threshold_witness :
    runReceiver (List.replicate 9 NetEvent.sockError) ((0 : ℕ), 0)
      = .ok (0, 9) ∧
    runReceiver (List.replicate 10 NetEvent.sockError) ((0 : ℕ), 0)
      = .error .transport ∧
    receiverStep ((0 : ℕ), 7) (NetEvent.recv 16 5 true) = .ok (5, 0) :=
  ⟨(receiver_error_threshold 0).1, (receiver_error_threshold 0).2.1,
    (receiver_error_threshold 0).2.2 7 16 5 (by norm_num)⟩

/-- Sampling a segment yields `step_resolution` points. -/
lemma linspace01_length (n : ℕ) : (linspace01 n).length = n := by
  rw [linspace01]
  by_cases h0 : n = 0
  · simp [h0]
  · by_cases h1 : n = 1
    · simp [h0, h1]
    · rw [if_neg h0, if_neg h1]
      rw [List.length_map, List.length_range]

/-- C9: `generate` is idempotent — a second call with no intervening
`clear_cache` returns exactly the value of the first — and from a fresh
generator it returns three equal-length coordinate rows with total
length 2 × resolution, which is also the returned trajectory length. -/
theorem generate_idempotent_and_shape (res : ℕ) (g : TrajGen) :
    (generate (generate g).2).1 = (generate g).1 ∧
    ((generate (TrajGen.mk res none)).1.1.1.length = 2 * res ∧
     (generate (TrajGen.mk res none)).1.1.2.1.length = 2 * res ∧
     (generate (TrajGen.mk res none)).1.1.2.2.length = 2 * res ∧
     (generate (TrajGen.mk res none)).1.2 = 2 * res) := by
  constructor
  · cases hc : g.cached with
    | some c => simp [generate, hc]
    | none => simp [generate, hc]
  · simp [generate, computeTrajectory, linspace01_length, two_mul]

/-- C5: when the intent source sets the quit field above 0.5 on its very
first call, the movement loop performs exactly one tick (one poll) and
stops, with no hardware command issued in that tick or afterwards. -/
theorem move_quit_first_tick_stops_without_actuation (cfg : IKConfig)
    (hw : ℤ → ℕ → Bool) (ctrl : Momentum → Momentum)
    (trajectory : List ℝ × List ℝ × List ℝ)
    (trajectory_length step_resolution fuel : ℕ)
    (h : (ctrl initialMomentum).quit_flag > 0.5) :
    move cfg hw ctrl trajectory trajectory_length step_resolution (fuel + 1)
      = .stopped 1 [] := by
  rw [move, moveLoop, if_pos h]

/-- Witness for C5: a controller answering quit = 1 immediately. -/
theorem move_quit_first_tick_stops_without_actuation_witness :
    ((fun _ : Momentum => Momentum.mk 0 0 1 1) initialMomentum).quit_flag
        > 0.5 ∧
    move defaultCfg (fun _ _ => true) (fun _ => Momentum.mk 0 0 1 1)
      ([], [], []) 40 20 (4 + 1) = .stopped 1 [] :=
  ⟨by norm_num,
    move_quit_first_tick_stops_without_actuation defaultCfg (fun _ _ => true)
      (fun _ => Momentum.mk 0 0 1 1) ([], [], []) 40 20 4 (by norm_num)⟩

/-- C10: for a valid leg id, `leg_position` never propagates an internal
failure: it returns `true` exactly when the leg update pipeline
(kinematics plus actuation) succeeds and `false` on any caught internal
error, never an exception. -/
theorem leg_position_swallows_internal_failures (cfg : IKConfig)
    (hw : ℤ → ℕ → Bool) (leg_id : String) (x y z : ℝ)
    (h : leg_id = "FL" ∨ leg_id = "FR" ∨ leg_id = "BL" ∨ leg_id = "BR") :
    ∃ mapping, legMapping leg_id = some mapping ∧
      leg_position cfg hw leg_id x y z =
        .ok (applyTrajectoryToLeg cfg hw mapping.1 mapping.2.1 x y z
          mapping.2.2.1 mapping.2.2.2).2.isNone := by
  rcases h with h | h | h | h <;> subst h <;>
    refine ⟨_, rfl, ?_⟩ <;>
    · rw [leg_position]
      cases hres : (applyTrajectoryToLeg cfg hw _ _ x y z _ _).2 <;>
        simp [legMapping, hres]

/-- Witness for C10 at leg FR, x = 50, y = 15, z = 0. -/
theorem leg_position_swallows_internal_failures_witness :
    ∃ mapping, legMapping "FR" = some mapping ∧
      leg_position defaultCfg (fun _ _ => true) "FR" 50 15 0 =
        .ok (applyTrajectoryToLeg defaultCfg (fun _ _ => true) mapping.1
          mapping.2.1 50 15 0 mapping.2.2.1 mapping.2.2.2).2.isNone :=
  leg_position_swallows_internal_failures defaultCfg (fun _ _ => true)
    "FR" 50 15 0 (Or.inr (Or.inl rfl))

end QuadrupedFw
